import Mathlib

/-!
Verification of `retico_object_permanence` (cozmo_object_permanence.py).

Shallow embedding of the `CozmoObjectPermanenceModule` tracking core:
the event intake queue (a deque of maxlen 1), the label-keyed registry
`tracked_objects`, the behavior handle `current_behavior`, the geometry
helpers (`calc_distance_from_cozmo` and the inline footprint halving /
min-10 clamp), and the `_extractor_thread` consumer loop.

Python runtime exceptions (KeyError on a missing dict key,
ZeroDivisionError on division by zero, IndexError on an out-of-range
list index) are modelled with `Except PyErr`: an `.error` result means
the exception propagates out of the thread body uncaught, terminating
the consumer thread.  Pixel coordinates and poses are modelled over ℚ.
Calls into the actuation layer (the robot) are recorded as a trace of
`ActCall` values; their results come from a deterministic `Env`.
-/

namespace CozmoObjPerm

/-- Python exceptions that the loop body can raise (all uncaught). -/
inductive PyErr where
  | keyError (k : String)
  | zeroDivisionError
  | indexError
deriving Repr, DecidableEq

/-- A pose: position x, y, z and rotation quaternion q0..q3
(mirrors the fields of `cozmo.util.Pose` that the module reads). -/
structure Pose where
  x : ℚ
  y : ℚ
  z : ℚ
  q0 : ℚ
  q1 : ℚ
  q2 : ℚ
  q3 : ℚ
deriving Repr, DecidableEq

/-- One detected object of a `DetectedObjectsIU` payload.  The module
reads the keys `label_str`, `xmin`, `xmax`, `ymin`, `ymax`; each is
`Option` so that a malformed entry (a missing key) is representable,
as a Python dict access on a missing key raises KeyError. -/
structure DetObj where
  label_str : Option String
  xmin : Option ℚ
  xmax : Option ℚ
  ymin : Option ℚ
  ymax : Option ℚ
deriving Repr, DecidableEq

/-- The payload of a `DetectedObjectsIU`: the detected objects in rank
order; `object0` is the head of the list (absent when empty). -/
structure DetPayload where
  objects : List DetObj
deriving Repr, DecidableEq

/-- An incremental unit dequeued by the consumer loop: either a
`SpeechRecognitionIU` (its recognized text) or a `DetectedObjectsIU`. -/
inductive IU where
  | speech (text : String)
  | detection (payload : DetPayload)
deriving Repr, DecidableEq

/-- Result of `robot.world.create_custom_fixed_object`. -/
structure FixedObject where
  object_id : Nat
  pose : Pose
deriving Repr, DecidableEq

/-- One entry of `tracked_objects[label]` (the dict literal built at
lines 162/164 of the source). -/
structure TrackedRecord where
  robot_pose : Pose
  object_pose : Pose
  object_name : String
  object_id : Nat
deriving Repr, DecidableEq

/-- A call issued to the actuation layer (the robot), recorded in
order of issue. -/
inductive ActCall where
  | stop_behavior
  | start_look_around
  | go_to_pose (p : Pose)
  | create_fixed_object (p : Pose) (x_size_mm y_size_mm z_size_mm : ℚ)
  | say_text (s : String)
deriving Repr, DecidableEq

/-- An output IU: `create_iu(grounded_in=input_iu)` followed by
`set_object(object_name, object_id)`. -/
structure OutputIU where
  object_name : String
  object_id : Nat
  grounded_in : IU
deriving Repr, DecidableEq

/-- The deterministic environment: the robot-side values the loop
reads.  `focal_x` is `robot.camera.config.focal_length.x`;
`robot_pose` is `robot.pose` at the moment of processing;
`create_fixed_object` gives the `FixedObject` the world returns for an
anchor request. -/
structure Env where
  focal_x : ℚ
  robot_pose : Pose
  create_fixed_object : Pose → ℚ → ℚ → ℚ → FixedObject

/-- The mutable fields of `CozmoObjectPermanenceModule`. -/
structure ModState where
  objects : List DetObj
  tracked_objects : List (String × List TrackedRecord)
  top_object : Option DetObj
  queue : List IU
  current_behavior : Option Unit
  robot_start_position : Pose
  extractor_thread_active : Bool
deriving Repr, DecidableEq

/-- `object_label in self.tracked_objects` (dict membership). -/
def trackedContains (t : List (String × List TrackedRecord)) (label : String) : Bool :=
  t.any (fun kv => kv.1 == label)

/-- `self.tracked_objects[label]` (dict lookup, first binding). -/
def trackedGet (t : List (String × List TrackedRecord)) (label : String) :
    Option (List TrackedRecord) :=
  (t.find? (fun kv => kv.1 == label)).map (·.2)

/-- `self.tracked_objects[label].append(record)` on an existing key. -/
def trackedAppend (t : List (String × List TrackedRecord)) (label : String)
    (r : TrackedRecord) : List (String × List TrackedRecord) :=
  t.map (fun kv => if kv.1 == label then (kv.1, kv.2 ++ [r]) else kv)

/-- `deque(maxlen=1).append`: drop-oldest on overflow, capacity one. -/
def dequeAppend (q : List IU) (x : IU) : List IU :=
  let q' := q ++ [x]
  q'.drop (q'.length - 1)

/-- Python `str.strip` whitespace test (ASCII whitespace suffices here). -/
def isPySpace (c : Char) : Bool :=
  c == ' ' || c == '\t' || c == '\n' || c == '\r' ||
    c == Char.ofNat 11 || c == Char.ofNat 12

/-- `text.strip().lower()` at line 114 of the source. -/
def pyNormalize (text : String) : List Char :=
  let stripped := ((text.toList.dropWhile isPySpace).reverse.dropWhile isPySpace).reverse
  stripped.map Char.toLower

/-- Python substring test `pat in s` on strings, as lists of chars. -/
def containsSub (pat : List Char) : List Char → Bool
  | [] => pat.isEmpty
  | c :: rest => pat.isPrefixOf (c :: rest) || containsSub pat rest

/-- Dict access `d[k]` on an optional field: KeyError when missing. -/
def getKey {α : Type} (v : Option α) (k : String) : Except PyErr α :=
  match v with
  | some a => .ok a
  | none => .error (.keyError k)

/-- `payload['object0']`: the top-ranked object, KeyError when there
are zero detected objects. -/
def getObject0 (p : DetPayload) : Except PyErr DetObj :=
  match p.objects.head? with
  | some o => .ok o
  | none => .error (.keyError "object0")

/-- `calc_distance_from_cozmo` (source lines 83-88):
`(known_width_mm * focal_length.x) / object_perceived_width` with
`known_width_mm = 76`. -/
def calc_distance_from_cozmo (focal_x object_perceived_width : ℚ) : ℚ :=
  (76 * focal_x) / object_perceived_width

/-- The inline footprint clamp (source lines 153-155): if either
dimension is below 10, BOTH are set to 10. -/
def footprintClamp (object_x_dims object_y_dims : ℚ) : ℚ × ℚ :=
  if object_x_dims < 10 ∨ object_y_dims < 10 then (10, 10)
  else (object_x_dims, object_y_dims)

/-- The spec's `normalizeFootprint(widthPx, heightPx)`: the halving at
source lines 148-149 followed by the clamp at lines 153-155. -/
def normalizeFootprint (widthPx heightPx : ℚ) : ℚ × ℚ :=
  footprintClamp (widthPx / 2) (heightPx / 2)

/-- `stop_execution` (lines 97-101): stop and clear the behavior
handle when one is active. -/
def stop_execution (s : ModState) : ModState × List ActCall :=
  match s.current_behavior with
  | some _ => ({ s with current_behavior := none }, [.stop_behavior])
  | none => (s, [])

/-- `begin_explore` (lines 90-95): start the look-around behavior when
none is active. -/
def begin_explore (s : ModState) : ModState × List ActCall :=
  match s.current_behavior with
  | none => ({ s with current_behavior := some () }, [.start_look_around])
  | some _ => (s, [])

/-- `go_to_object` (lines 62-81): registry lookup by name; on a hit,
select index 0, stop any behavior and move to a pose whose x is
reduced by one third. -/
def go_to_object (s : ModState) (object_name : String) :
    Except PyErr (ModState × List ActCall) :=
  match trackedGet s.tracked_objects object_name with
  | none => .ok (s, [])
  | some seen =>
    match seen.head? with
    | none => .error .indexError
    | some r0 =>
      let op := r0.object_pose
      let (s1, a1) := stop_execution s
      let near_object_pose : Pose :=
        ⟨op.x - op.x / 3, op.y, op.z, op.q0, op.q1, op.q2, op.q3⟩
      .ok (s1, a1 ++ [.go_to_pose near_object_pose])

/-- The fresh-label path of the loop body (source lines 145-168): stop
any behavior, compute the halved bounding-box dims, estimate distance
(Python raises ZeroDivisionError when the half-width is zero), apply
the min-10 clamp, anchor, record, announce, emit.  Takes the already
extracted label and raw box coordinates. -/
def anchorNewObject (env : Env) (s : ModState) (iu : IU) (object_label : String)
    (xmax xmin ymax ymin : ℚ) :
    Except PyErr (ModState × List ActCall × List OutputIU) :=
  let (s, acts0) := stop_execution s
  let object_x_dims := (xmax - xmin) / 2
  let object_y_dims := (ymax - ymin) / 2
  -- `calc_distance_from_cozmo` divides by `object_x_dims`; Python
  -- raises ZeroDivisionError when it is zero.
  if object_x_dims = 0 then .error .zeroDivisionError
  else
    let distance := calc_distance_from_cozmo env.focal_x object_x_dims
    let (object_x_dims, object_y_dims) := footprintClamp object_x_dims object_y_dims
    let robot_pose := env.robot_pose
    -- Pose(distance, 0, object_x_dims/2, angle_z=degrees(0)): the
    -- zero z-rotation is the identity quaternion (1, 0, 0, 0).
    let anchor_request : Pose := ⟨distance, 0, object_x_dims / 2, 1, 0, 0, 0⟩
    let fixed_object :=
      env.create_fixed_object anchor_request object_y_dims object_y_dims object_x_dims
    let record : TrackedRecord :=
      ⟨robot_pose, fixed_object.pose, object_label, fixed_object.object_id⟩
    let tracked' :=
      if trackedContains s.tracked_objects object_label then
        trackedAppend s.tracked_objects object_label record
      else
        s.tracked_objects ++ [(object_label, [record])]
    let output_iu : OutputIU := ⟨object_label, fixed_object.object_id, iu⟩
    .ok ({ s with tracked_objects := tracked' },
         acts0 ++
           [.create_fixed_object anchor_request object_y_dims object_y_dims object_x_dims,
            .say_text object_label],
         [output_iu])

/-- The detection-handling tail of the loop body (source lines
137-168), entered after the `isinstance` dispatch: extract the label,
dedup against the registry, else anchor the new object.  A `.error`
is an uncaught Python exception. -/
def processDetectionTail (env : Env) (s : ModState) (iu : IU) (payload : DetPayload) :
    Except PyErr (ModState × List ActCall × List OutputIU) :=
  match getObject0 payload with
  | .error e => .error e
  | .ok obj0 =>
    match getKey obj0.label_str "label_str" with
    | .error e => .error e
    | .ok object_label =>
      if trackedContains s.tracked_objects object_label then
        -- log "already tracked"; self.queue.clear(); continue
        .ok ({ s with queue := [] }, [], [])
      else
        -- In the source `stop_execution` (line 145) runs before the
        -- geometry reads of lines 148-149; it raises nothing and the
        -- `Except` result discards state on error, so extracting the
        -- keys first yields the same result.  A missing key raises in
        -- source order: xmax, xmin (line 148) before ymax, ymin (149).
        match getKey obj0.xmax "xmax", getKey obj0.xmin "xmin",
            getKey obj0.ymax "ymax", getKey obj0.ymin "ymin" with
        | .error e, _, _, _ => .error e
        | _, .error e, _, _ => .error e
        | _, _, .error e, _ => .error e
        | _, _, _, .error e => .error e
        | .ok xmax, .ok xmin, .ok ymax, .ok ymin =>
          anchorNewObject env s iu object_label xmax xmin ymax ymin

/-- One processing of a dequeued IU: the body of `_extractor_thread`
after `popleft` (source lines 111-168). -/
def processIU (env : Env) (s : ModState) (iu : IU) :
    Except PyErr (ModState × List ActCall × List OutputIU) :=
  match iu with
  | .speech text =>
    let input_text := pyNormalize text
    if containsSub "pause".toList input_text then
      let (s1, a1) := stop_execution s
      .ok (s1, a1, [])
    else if containsSub "explore".toList input_text then
      let (s1, a1) := begin_explore s
      .ok (s1, a1, [])
    else if containsSub "home".toList input_text then
      .ok (s, [.go_to_pose s.robot_start_position], [])
    else
      (go_to_object s (String.mk input_text)).map (fun r => (r.1, r.2, []))
  | .detection payload =>
    -- self.objects = input_iu.payload; if non-empty, cache the top
    -- object and RE-APPEND the input IU to the queue (line 132).
    let s := { s with objects := payload.objects }
    let s :=
      match payload.objects.head? with
      | some obj0 => { s with top_object := some obj0, queue := dequeAppend s.queue iu }
      | none => s
    -- NOTE: the `else: self.top_object = None` at lines 133-134 is
    -- attached to the isinstance check and is unreachable for a
    -- DetectedObjectsIU, so a zero-object payload falls through to
    -- the label extraction below without clearing `top_object`.
    processDetectionTail env s iu payload

/-- One poll cycle of `_extractor_thread` (source lines 104-168): if
the queue is empty, sleep and re-check; otherwise popleft and process.
The `while True` loop never consults `extractor_thread_active`. -/
def loopStep (env : Env) (s : ModState) :
    Except PyErr (ModState × List ActCall × List OutputIU) :=
  match s.queue with
  | [] => .ok (s, [], [])
  | iu :: rest => processIU env { s with queue := rest } iu

/-- `prepare_run` (lines 170-172): sets the active flag (and spawns
the consumer thread). -/
def prepare_run (s : ModState) : ModState :=
  { s with extractor_thread_active := true }

/-- `shutdown` (lines 174-175): clears the active flag — and does
nothing else. -/
def shutdown (s : ModState) : ModState :=
  { s with extractor_thread_active := false }

/-! Concrete fixtures used to evaluate the embedding at explicit
inputs: an environment with focal length x = 100, and small states
and events. -/

/-- A concrete environment: focal_x = 100, robot at (1,2,3), and the
world returns object id 7 with the requested pose for any anchor. -/
def envW : Env := ⟨100, ⟨1, 2, 3, 1, 0, 0, 0⟩, fun p _ _ _ => ⟨7, p⟩⟩

/-- The start pose captured at `__init__`. -/
def startPoseW : Pose := ⟨0, 0, 0, 1, 0, 0, 0⟩

/-- A well-formed detected object: label "mug", box (0,40)×(0,60). -/
def mugObj : DetObj := ⟨some "mug", some 0, some 40, some 0, some 60⟩

/-- The payload holding just `mugObj`. -/
def mugPayload : DetPayload := ⟨[mugObj]⟩

/-- The detection IU carrying `mugPayload`. -/
def mugIU : IU := .detection mugPayload

/-- The record anchored for `mugObj` under `envW` (half-width 20 ⇒
distance 76·100/20 = 380; anchor request (380, 0, 10)). -/
def mugRecordW : TrackedRecord :=
  ⟨⟨1, 2, 3, 1, 0, 0, 0⟩, ⟨380, 0, 10, 1, 0, 0, 0⟩, "mug", 7⟩

/-- Initial state: nothing tracked, `mugIU` queued, no behavior. -/
def sMugQ : ModState := ⟨[], [], none, [mugIU], none, startPoseW, true⟩

/-- A state that already tracks "mug" (one record). -/
def sMugTracked : ModState :=
  ⟨[], [("mug", [mugRecordW])], none, [], none, startPoseW, true⟩

/-- A state with an active behavior and an empty queue. -/
def sBehav : ModState := ⟨[], [], none, [], some (), startPoseW, true⟩

/-- A detected object missing its `xmax` geometry key. -/
def malfObj : DetObj := ⟨some "cup", some 0, none, some 0, some 20⟩

/-- State with the malformed-geometry detection event queued. -/
def sMalfQ : ModState :=
  ⟨[], [], none, [.detection ⟨[malfObj]⟩], none, startPoseW, true⟩

/-- State with a zero-object detection event queued and a stale
`top_object` from an earlier frame. -/
def sZeroQ : ModState :=
  ⟨[], [], some mugObj, [.detection ⟨[]⟩], none, startPoseW, true⟩

/-- A degenerate detected object: xmax = xmin = 5 (zero pixel width). -/
def degenObj : DetObj := ⟨some "pin", some 5, some 5, some 0, some 20⟩

/-- State with the degenerate-box detection event queued. -/
def sDegenQ : ModState :=
  ⟨[], [], none, [.detection ⟨[degenObj]⟩], none, startPoseW, true⟩

end CozmoObjPerm

namespace CozmoObjPerm

/-- **C9.** For every `observedPixelWidth > 0` (and a camera with
positive x focal length), `calc_distance_from_cozmo` returns
`76 * focalLengthPx / observedPixelWidth`, and for fixed focal length
the result is strictly decreasing in the observed pixel width. -/
theorem calc_distance_formula_and_strict_antitone (f w : ℚ)
    (hf : 0 < f) (hw : 0 < w) :
    calc_distance_from_cozmo f w = 76 * f / w ∧
      ∀ w', w < w' → calc_distance_from_cozmo f w' < calc_distance_from_cozmo f w := by
  constructor
  · rfl
  · intro w' hww'
    unfold calc_distance_from_cozmo
    have h76f : 0 < 76 * f := by positivity
    exact div_lt_div_of_pos_left h76f hw hww'

/-- Witness for C9 at f = 100, w = 10. -/
theorem calc_distance_formula_and_strict_antitone_witness :
    calc_distance_from_cozmo 100 10 = 76 * 100 / 10 ∧
      ∀ w', (10:ℚ) < w' →
        calc_distance_from_cozmo 100 w' < calc_distance_from_cozmo 100 10 :=
  calc_distance_formula_and_strict_antitone 100 10 (by norm_num) (by norm_num)

/-- **C8.** `normalizeFootprint` never returns a dimension below 10,
and returns exactly `(w/2, h/2)` whenever both halves are already
at least 10. -/
theorem normalizeFootprint_floor_and_exact (w h : ℚ) :
    10 ≤ (normalizeFootprint w h).1 ∧ 10 ≤ (normalizeFootprint w h).2 ∧
      (10 ≤ w / 2 → 10 ≤ h / 2 → normalizeFootprint w h = (w / 2, h / 2)) := by
  unfold normalizeFootprint footprintClamp
  by_cases hc : w / 2 < 10 ∨ h / 2 < 10
  · simp only [hc, if_true]
    refine ⟨le_refl 10, le_refl 10, fun hx hy => ?_⟩
    rcases hc with hc | hc <;> linarith
  · simp only [if_neg hc]
    push_neg at hc
    exact ⟨hc.1, hc.2, fun _ _ => trivial⟩

/-- Witness for C8 at (w, h) = (30, 40). -/
theorem normalizeFootprint_floor_and_exact_witness :
    10 ≤ (normalizeFootprint 30 40).1 ∧ 10 ≤ (normalizeFootprint 30 40).2 ∧
      normalizeFootprint 30 40 = ((30:ℚ) / 2, (40:ℚ) / 2) :=
  ⟨(normalizeFootprint_floor_and_exact 30 40).1,
   (normalizeFootprint_floor_and_exact 30 40).2.1,
   (normalizeFootprint_floor_and_exact 30 40).2.2 (by norm_num) (by norm_num)⟩

/-- **C7 counterexample.** At (widthPx, heightPx) = (100, 10) the
halved width 50 is at least 10 while the halved height 5 is below 10,
yet the clamp does NOT leave the width unchanged: both components are
set to 10. -/
theorem normalizeFootprint_not_independent :
    (10:ℚ) ≤ 100 / 2 ∧ (10:ℚ) / 2 < 10 ∧
      (normalizeFootprint 100 10).1 ≠ 100 / 2 := by
  refine ⟨by norm_num, by norm_num, ?_⟩
  unfold normalizeFootprint footprintClamp
  norm_num

/-- **C7 amended.** The footprint normalization halves each dimension,
but the clamp is joint, not independent: if EITHER halved dimension is
below 10, BOTH are set to exactly 10 (a half already at or above 10 is
overwritten as well); only when both halves are at least 10 are they
returned unchanged. -/
theorem normalizeFootprint_joint_clamp (w h : ℚ) :
    (w / 2 < 10 ∨ h / 2 < 10 → normalizeFootprint w h = (10, 10)) ∧
      (¬(w / 2 < 10 ∨ h / 2 < 10) → normalizeFootprint w h = (w / 2, h / 2)) := by
  unfold normalizeFootprint footprintClamp
  constructor
  · intro hc
    simp only [hc, if_true]
  · intro hc
    simp only [hc, if_false]

/-- Witness for the amended C7 at (100, 10): the width half 50 is
clamped down to 10 because the height half 5 is below 10. -/
theorem normalizeFootprint_joint_clamp_witness :
    normalizeFootprint 100 10 = (10, 10) :=
  (normalizeFootprint_joint_clamp 100 10).1 (by norm_num)

/-- **C2.** A dequeued detection event whose top object lacks the
`xmax` geometry key makes the loop body raise an uncaught KeyError:
the error propagates out of `_extractor_thread` (there is no
try/except anywhere in the loop), terminating the consumer loop
rather than being logged, discarded and polled past. -/
theorem malformed_event_kills_loop :
    loopStep envW sMalfQ = .error (.keyError "xmax") := rfl

/-- **C3.** A dequeued detection event with zero detected objects
falls through the `len > 0` check without clearing `top_object` (the
`else` that clears it belongs to the isinstance dispatch) and then
raises an uncaught KeyError on `payload['object0']`, terminating the
consumer loop instead of taking no further action. -/
theorem zero_object_event_raises_keyerror :
    loopStep envW sZeroQ = .error (.keyError "object0") := rfl

/-- **C6.** The loop performs no positivity guard before calling the
distance estimator: the min-10 clamp runs only after
`calc_distance_from_cozmo`, so a degenerate box with xmax = xmin = 5
reaches the division with observed pixel width 0 and raises an
uncaught ZeroDivisionError. -/
theorem degenerate_box_zero_division :
    loopStep envW sDegenQ = .error .zeroDivisionError := by
  norm_num [loopStep, shutdown, processIU, processDetectionTail, anchorNewObject, getObject0,
    getKey, envW, sMugQ, sDegenQ, degenObj, mugIU, mugPayload, mugObj, startPoseW, Except.map,
    stop_execution, dequeAppend, trackedContains, calc_distance_from_cozmo, footprintClamp]

/-- **C4.** `shutdown` only clears `_extractor_thread_active`; the
`while True` loop never reads that flag.  After `shutdown`, the next
poll cycle still dequeues and fully processes the queued detection
event, emitting an output IU, instead of exiting. -/
theorem shutdown_flag_not_observed :
    (loopStep envW (shutdown sMugQ)).map (fun r => r.2.2) =
      .ok [⟨"mug", 7, mugIU⟩] := by
  norm_num [loopStep, shutdown, processIU, processDetectionTail, anchorNewObject, getObject0,
    getKey, envW, sMugQ, sDegenQ, degenObj, mugIU, mugPayload, mugObj, startPoseW, Except.map,
    stop_execution, dequeAppend, trackedContains, calc_distance_from_cozmo, footprintClamp]

/-- **C5 counterexample.** Dequeuing the detection event `mugIU` from
the intake queue re-enqueues that very event (source line 132): after
the poll cycle the queue again holds `mugIU`, refuting "never
re-enqueues that same event". -/
theorem dequeued_event_reenqueued :
    (loopStep envW sMugQ).map (fun r => r.1.queue) = .ok [mugIU] := by
  norm_num [loopStep, shutdown, processIU, processDetectionTail, anchorNewObject, getObject0,
    getKey, envW, sMugQ, sDegenQ, degenObj, mugIU, mugPayload, mugObj, startPoseW, Except.map,
    stop_execution, dequeAppend, trackedContains, calc_distance_from_cozmo, footprintClamp]

/-- **C10.** Speech-command dispatch runs exactly one handler, chosen
by fixed precedence on the normalized (stripped, lowercased) text:
"pause" (stop behavior) over "explore" (begin behavior) over "home"
(move to the start pose) over the whole-text registry lookup. -/
theorem speech_dispatch_precedence (env : Env) (s : ModState) (text : String) :
    (containsSub "pause".toList (pyNormalize text) = true →
        processIU env s (.speech text) =
          .ok ((stop_execution s).1, (stop_execution s).2, [])) ∧
    (containsSub "pause".toList (pyNormalize text) = false →
      containsSub "explore".toList (pyNormalize text) = true →
        processIU env s (.speech text) =
          .ok ((begin_explore s).1, (begin_explore s).2, [])) ∧
    (containsSub "pause".toList (pyNormalize text) = false →
      containsSub "explore".toList (pyNormalize text) = false →
      containsSub "home".toList (pyNormalize text) = true →
        processIU env s (.speech text) =
          .ok (s, [.go_to_pose s.robot_start_position], [])) ∧
    (containsSub "pause".toList (pyNormalize text) = false →
      containsSub "explore".toList (pyNormalize text) = false →
      containsSub "home".toList (pyNormalize text) = false →
        processIU env s (.speech text) =
          (go_to_object s (String.mk (pyNormalize text))).map
            (fun r => (r.1, r.2, []))) := by
  refine ⟨fun hp => ?_, fun hp he => ?_, fun hp he hh => ?_, fun hp he hh => ?_⟩
  · simp only [processIU, hp]
    simp
  · simp only [processIU, hp, he]
    simp
  · simp only [processIU, hp, he, hh]
    simp
  · simp only [processIU, hp, he, hh]
    simp

/-- Witness for C10: "  Pause and Explore  " contains both "pause"
and "explore" after normalization, and the pause handler (stop
behavior) is the one that runs. -/
theorem speech_dispatch_precedence_witness :
    processIU envW sBehav (.speech "  Pause and Explore  ") =
      .ok ((stop_execution sBehav).1, (stop_execution sBehav).2, []) :=
  (speech_dispatch_precedence envW sBehav "  Pause and Explore  ").1 (by decide)

/-- A label with a registry entry is reported as contained. -/
lemma trackedContains_of_trackedGet (t : List (String × List TrackedRecord))
    (label : String) (rs : List TrackedRecord)
    (h : trackedGet t label = some rs) : trackedContains t label = true := by
  induction t with
  | nil => simp [trackedGet] at h
  | cons kv rest ih =>
    by_cases hk : kv.1 == label
    · simp [trackedContains, hk]
    · simp only [Bool.not_eq_true] at hk
      simp only [trackedGet, List.find?] at h
      rw [hk] at h
      simp only [trackedContains, List.any_cons, hk, Bool.false_or]
      exact ih h

/-- **C1.** Once a label has a registry record, processing a later
detection event whose top-ranked object carries that same label
issues no actuation call (no second anchor), emits no output IU,
clears the intake queue entirely, and leaves the registry — hence the
single record for that label — unchanged. -/
theorem tracked_label_second_sighting_creates_nothing (env : Env) (s : ModState)
    (payload : DetPayload) (obj0 : DetObj) (label : String) (r : TrackedRecord)
    (hhead : payload.objects.head? = some obj0)
    (hlabel : obj0.label_str = some label)
    (hone : trackedGet s.tracked_objects label = some [r]) :
    processIU env s (.detection payload) =
      .ok ({ s with objects := payload.objects, top_object := some obj0, queue := [] },
           [], []) ∧
      trackedGet ({ s with objects := payload.objects, top_object := some obj0,
                            queue := [] }).tracked_objects label = some [r] := by
  have hc : trackedContains s.tracked_objects label = true :=
    trackedContains_of_trackedGet _ _ _ hone
  constructor
  · simp [processIU, processDetectionTail, getObject0, getKey, hhead, hlabel, hc,
      dequeAppend]
  · simpa using hone

/-- Witness for C1: a second sighting of the already-tracked "mug". -/
theorem tracked_label_second_sighting_creates_nothing_witness :
    processIU envW sMugTracked (.detection mugPayload) =
      .ok ({ sMugTracked with objects := mugPayload.objects, top_object := some mugObj, queue := [] }, [], []) ∧
      trackedGet ({ sMugTracked with objects := mugPayload.objects, top_object := some mugObj, queue := [] }).tracked_objects "mug" =
        some [mugRecordW] :=
  tracked_label_second_sighting_creates_nothing envW sMugTracked mugPayload mugObj
    "mug" mugRecordW rfl rfl (by simp [sMugTracked, trackedGet])

/-- **C5 amended.** After dequeuing a DetectionEvent with at least one
detected object, the loop re-enqueues that same event into the intake
queue (source line 132).  A new-label event is therefore dequeued and
processed a second time; on that second pass the already-tracked
branch clears the queue, changes no registry entry and emits nothing.
So such an event is consumed twice — not exactly once — and only the
first consumption anchors and emits. -/
lemma trackedContains_append_self (t : List (String × List TrackedRecord))
    (label : String) (rs : List TrackedRecord) :
    trackedContains (t ++ [(label, rs)]) label = true := by
  simp [trackedContains]

theorem detection_event_consumed_twice (env : Env) (s : ModState)
    (payload : DetPayload) (obj0 : DetObj) (label : String)
    (xma xmi yma ymi : ℚ)
    (hq : s.queue = [IU.detection payload])
    (hhead : payload.objects.head? = some obj0)
    (hlabel : obj0.label_str = some label)
    (hfresh : trackedContains s.tracked_objects label = false)
    (hxmax : obj0.xmax = some xma) (hxmin : obj0.xmin = some xmi)
    (hymax : obj0.ymax = some yma) (hymin : obj0.ymin = some ymi)
    (hw : (xma - xmi) / 2 ≠ 0) :
    ∃ r1 : ModState × List ActCall × List OutputIU,
      loopStep env s = .ok r1 ∧
      r1.1.queue = [IU.detection payload] ∧
      r1.2.2.length = 1 ∧
      trackedContains r1.1.tracked_objects label = true ∧
      loopStep env r1.1 = .ok ({ r1.1 with queue := [] }, [], []) := by
  obtain ⟨o, t, tob, q, cb, rsp, fl⟩ := s
  obtain rfl : q = [IU.detection payload] := hq
  replace hfresh : trackedContains t label = false := hfresh
  rcases cb with _ | u
  · rcases hstep : loopStep env ⟨o, t, tob, [IU.detection payload], none, rsp, fl⟩
      with e | ⟨s1, acts1, outs1⟩
    · exfalso
      simp [loopStep, processIU, processDetectionTail, anchorNewObject, getObject0,
        getKey, hhead, hlabel, hfresh, hxmax, hxmin, hymax, hymin, stop_execution,
        dequeAppend, hw] at hstep
    · refine ⟨(s1, acts1, outs1), rfl, ?_⟩
      simp [loopStep, processIU, processDetectionTail, anchorNewObject, getObject0,
        getKey, hhead, hlabel, hfresh, hxmax, hxmin, hymax, hymin, stop_execution,
        dequeAppend, hw] at hstep
      obtain ⟨h1, h2, h3⟩ := hstep
      subst h1
      subst h2
      subst h3
      refine ⟨?_, ?_, ?_, ?_⟩ <;>
        simp [loopStep, processIU, processDetectionTail, anchorNewObject, getObject0,
          getKey, hhead, hlabel, hfresh, hxmax, hxmin, hymax, hymin, stop_execution,
          dequeAppend, hw, trackedContains_append_self]
  · cases u
    rcases hstep : loopStep env ⟨o, t, tob, [IU.detection payload], some (), rsp, fl⟩
      with e | ⟨s1, acts1, outs1⟩
    · exfalso
      simp [loopStep, processIU, processDetectionTail, anchorNewObject, getObject0,
        getKey, hhead, hlabel, hfresh, hxmax, hxmin, hymax, hymin, stop_execution,
        dequeAppend, hw] at hstep
    · refine ⟨(s1, acts1, outs1), rfl, ?_⟩
      simp [loopStep, processIU, processDetectionTail, anchorNewObject, getObject0,
        getKey, hhead, hlabel, hfresh, hxmax, hxmin, hymax, hymin, stop_execution,
        dequeAppend, hw] at hstep
      obtain ⟨h1, h2, h3⟩ := hstep
      subst h1
      subst h2
      subst h3
      refine ⟨?_, ?_, ?_, ?_⟩ <;>
        simp [loopStep, processIU, processDetectionTail, anchorNewObject, getObject0,
          getKey, hhead, hlabel, hfresh, hxmax, hxmin, hymax, hymin, stop_execution,
          dequeAppend, hw, trackedContains_append_self]

/-- Witness for the amended C5: the fresh "mug" event is consumed
twice, with the second cycle only clearing the queue. -/
theorem detection_event_consumed_twice_witness :
    ∃ r1 : ModState × List ActCall × List OutputIU,
      loopStep envW sMugQ = .ok r1 ∧
      r1.1.queue = [IU.detection mugPayload] ∧
      r1.2.2.length = 1 ∧
      trackedContains r1.1.tracked_objects "mug" = true ∧
      loopStep envW r1.1 = .ok ({ r1.1 with queue := [] }, [], []) :=
  detection_event_consumed_twice envW sMugQ mugPayload mugObj "mug" 40 0 60 0
    rfl rfl rfl rfl rfl rfl rfl rfl (by norm_num)

end CozmoObjPerm
